import Mathlib

/-!
Verification of the VerifyChatBot backend (`app.py`): a FastAPI service
keeping an in-memory per-session conversation log and forwarding messages
to an external model.  We embed the data model (message logs, the
`conversations` dict, the request handlers) shallowly: the dict is an
association list with unique keys, the model gateway (`llm.invoke`) is a
function parameter returning `Except` (exception or reply), and each
handler returns its HTTP outcome together with the updated store.
-/

/-- Message roles, as in langchain's SystemMessage / HumanMessage / AIMessage. -/
inductive Role where
  | system
  | user
  | assistant
deriving DecidableEq

/-- A role-tagged message entry, as stored in a conversation history list. -/
structure Message where
  role : Role
  content : String
deriving DecidableEq

/-- The fixed system instruction text (`SYSTEM_PROMPT` in app.py). -/
def SYSTEM_PROMPT : String := "You are VerifyBot, the official AI assistant of Verify — a secure AI-powered platform designed to eliminate fake degrees and certificates. \nVerify uses blockchain, AI, and OCR to authenticate both physical and digital certificates issued by verified universities.\n\nYour goals are to:\n1. Help users understand how to verify certificates on the platform.\n2. Assist universities in uploading databases, issuing new certificates, or integrating blockchain-based QR codes.\n3. Guide verifiers in uploading batches of certificates and checking their authenticity.\n4. Support administrators in managing verified universities, removing fraudulent ones, and monitoring certificate activity.\n5. Explain how the system uses YOLOv11 object detection, image hashing, and OCR (Tesseract) for validating old certificates.\n6. Clearly describe how Ethereum blockchain and MetaMask integration make new e-certificates tamper-proof.\n7. Always maintain a professional, trustworthy, and secure tone.\n8. Politely refuse any request to falsify or alter certificates, and redirect such queries to the proper verification process.\n9. Provide step-by-step help for common tasks like verification, QR scanning, MetaMask connection, or dashboard navigation.\n10. Use concise technical explanations when answering advanced questions from developers or system admins.\n\nTech Stack (for context): TypeScript, React, FastAPI, Node.js, AWS, MongoDB, Ethereum blockchain, MetaMask.\n\nWhenever uncertain, ask clarifying questions before responding. Always emphasize security, authenticity, and transparency.\n"

/-- The single-entry log seeding every fresh conversation. -/
def freshLog : List Message := [⟨Role.system, SYSTEM_PROMPT⟩]

/-- The `conversations` dict: session id keyed association list of logs. -/
abbrev Conversations := List (String × List Message)

/-- Dict lookup (`conversations[sid]` / `sid in conversations`). -/
def dictFind : Conversations → String → Option (List Message)
  | [], _ => none
  | (k, v) :: rest, sid => if k = sid then some v else dictFind rest sid

/-- Dict update (`conversations[sid] = log`): overwrite if present, else add. -/
def dictSet : Conversations → String → List Message → Conversations
  | [], sid, log => [(sid, log)]
  | (k, v) :: rest, sid, log =>
    if k = sid then (k, log) :: rest else (k, v) :: dictSet rest sid log

/-- Python `str.strip()` (whitespace variant): drop whitespace at both ends. -/
def pyStrip (s : String) : String :=
  ⟨((s.data.dropWhile Char.isWhitespace).reverse.dropWhile Char.isWhitespace).reverse⟩

/-- `get_or_create_history(session_id)`: returns the log for the session,
seeding an unseen session with `freshLog`; the (possibly grown) dict is
returned alongside since Python mutates the module-level dict in place. -/
def get_or_create_history (conversations : Conversations) (session_id : String) :
    List Message × Conversations :=
  match dictFind conversations session_id with
  | some log => (log, conversations)
  | none => (freshLog, dictSet conversations session_id freshLog)

/-- Request body of POST /chat. -/
structure ChatRequest where
  message : String
  session_id : String
deriving DecidableEq

/-- Response body of POST /chat on success. -/
structure ChatResponse where
  response : String
  session_id : String
deriving DecidableEq

/-- Request body of POST /clear-history. -/
structure ClearHistoryRequest where
  session_id : String
deriving DecidableEq

/-- An HTTPException as FastAPI surfaces it: status code and detail string. -/
structure HTTPError where
  status_code : Nat
  detail : String
deriving DecidableEq

/-- A Python exception as seen by the handler's `except Exception as e`:
either an HTTPException (status + detail) or some other exception whose
`str(e)` is the carried message. -/
inductive PyExc where
  | http (status_code : Nat) (detail : String)
  | other (msg : String)
deriving DecidableEq

/-- Python `str(e)`: starlette's HTTPException prints `"<status>: <detail>"`. -/
def strOfExc : PyExc → String
  | .http code detail => toString code ++ ": " ++ detail
  | .other msg => msg

/-- The model gateway `llm.invoke`: the full history in, either the reply
text (`response.content`) or a raised exception's message out. -/
abbrev Gateway := List Message → Except String String

/-- The body of the `try:` block of the chat handler - everything that can
raise, before the `except Exception` clause is applied. -/
def chatTryBody (llm_invoke : Gateway) (conversations : Conversations)
    (request : ChatRequest) : Except PyExc ChatResponse × Conversations :=
  if (pyStrip request.message).data.isEmpty then
    (Except.error (PyExc.http 400 "Message cannot be empty"), conversations)
  else
    match get_or_create_history conversations request.session_id with
    | (history, conversations) =>
      let history := history ++ [⟨Role.user, request.message⟩]
      let conversations := dictSet conversations request.session_id history
      match llm_invoke history with
      | Except.error e => (Except.error (PyExc.other e), conversations)
      | Except.ok bot_message =>
        let history := history ++ [⟨Role.assistant, bot_message⟩]
        let conversations := dictSet conversations request.session_id history
        (Except.ok ⟨bot_message, request.session_id⟩, conversations)

/-- POST /chat.  The `except Exception as e` clause catches every exception
raised in the body - including the HTTPException(400) for a blank message,
since FastAPI's HTTPException subclasses Exception - and re-raises it as
HTTPException(500, "Error processing message: " + str(e)). -/
def chat (llm_invoke : Gateway) (conversations : Conversations)
    (request : ChatRequest) : Except HTTPError ChatResponse × Conversations :=
  match chatTryBody llm_invoke conversations request with
  | (Except.ok r, conversations) => (Except.ok r, conversations)
  | (Except.error e, conversations) =>
    (Except.error ⟨500, "Error processing message: " ++ strOfExc e⟩, conversations)

/-- Response body of POST /clear-history. -/
structure ClearHistoryResponse where
  message : String
  session_id : String
deriving DecidableEq

/-- POST /clear-history: reset a present session's log to `freshLog`,
no-op on an absent one; always returns the confirmation message. -/
def clear_history (conversations : Conversations) (request : ClearHistoryRequest) :
    Except HTTPError ClearHistoryResponse × Conversations :=
  if (dictFind conversations request.session_id).isSome then
    (Except.ok ⟨"Conversation history cleared", request.session_id⟩,
      dictSet conversations request.session_id freshLog)
  else
    (Except.ok ⟨"Conversation history cleared", request.session_id⟩, conversations)

/-- Python falsiness of `os.getenv` results: None and "" are falsy. -/
def pyFalsy : Option String → Bool
  | none => true
  | some s => s.data.isEmpty

/-- The startup credential check: `if not google_api_key: raise ValueError(...)`. -/
def startupCheck (google_api_key : Option String) : Except String Unit :=
  if pyFalsy google_api_key then
    Except.error "GOOGLE_API_KEY not found in environment variables"
  else
    Except.ok ()

/-- One externally callable state-mutating operation of the service. -/
inductive Op where
  | send (llm_invoke : Gateway) (request : ChatRequest)
  | clear (request : ClearHistoryRequest)

/-- Applying one operation to the store (dropping the HTTP response). -/
def applyOp (conversations : Conversations) : Op → Conversations
  | Op.send llm_invoke request => (chat llm_invoke conversations request).2
  | Op.clear request => (clear_history conversations request).2

/-- Running a sequence of operations from a store state. -/
def runOps (conversations : Conversations) (ops : List Op) : Conversations :=
  ops.foldl applyOp conversations

/-! ## Dictionary lemmas -/

theorem dictFind_dictSet (st : Conversations) (k sid : String) (v : List Message) :
    dictFind (dictSet st k v) sid = if k = sid then some v else dictFind st sid := by
  induction st with
  | nil => simp [dictSet, dictFind]
  | cons hd tl ih =>
    obtain ⟨k0, v0⟩ := hd
    by_cases h1 : k0 = k
    · subst h1
      by_cases h2 : k0 = sid <;> simp [dictSet, dictFind, h2]
    · by_cases h2 : k0 = sid
      · subst h2
        simp [dictSet, dictFind, h1, Ne.symm h1]
      · simp [dictSet, dictFind, h1, h2, ih]

theorem dictFind_dictSet_self (st : Conversations) (k : String) (v : List Message) :
    dictFind (dictSet st k v) k = some v := by
  simp [dictFind_dictSet]

theorem dictFind_dictSet_ne (st : Conversations) (k sid : String) (v : List Message)
    (h : k ≠ sid) : dictFind (dictSet st k v) sid = dictFind st sid := by
  simp [dictFind_dictSet, h]

theorem dictSet_dictSet (st : Conversations) (k : String) (v w : List Message) :
    dictSet (dictSet st k v) k w = dictSet st k w := by
  induction st with
  | nil => simp [dictSet]
  | cons hd tl ih =>
    obtain ⟨k0, v0⟩ := hd
    by_cases h1 : k0 = k <;> simp [dictSet, h1, ih]

/-! ## get_or_create_history equations -/

theorem get_or_create_seen (st : Conversations) (sid : String) (log : List Message)
    (h : dictFind st sid = some log) : get_or_create_history st sid = (log, st) := by
  unfold get_or_create_history
  rw [h]

theorem get_or_create_not_seen (st : Conversations) (sid : String)
    (h : dictFind st sid = none) :
    get_or_create_history st sid = (freshLog, dictSet st sid freshLog) := by
  unfold get_or_create_history
  rw [h]

theorem dictFind_get_or_create_ne (st : Conversations) (rsid sid : String)
    (h : rsid ≠ sid) :
    dictFind (get_or_create_history st rsid).2 sid = dictFind st sid := by
  cases hf : dictFind st rsid with
  | none => rw [get_or_create_not_seen st rsid hf]; exact dictFind_dictSet_ne st rsid sid freshLog h
  | some log => rw [get_or_create_seen st rsid log hf]

/-! ## chat handler equations -/

theorem chat_blank_eq (llm_invoke : Gateway) (st : Conversations) (req : ChatRequest)
    (hb : (pyStrip req.message).data.isEmpty = true) :
    chat llm_invoke st req =
      (Except.error ⟨500, "Error processing message: 400: Message cannot be empty"⟩, st) := by
  unfold chat chatTryBody
  rw [hb]
  rfl

theorem chat_nonblank_eq (llm_invoke : Gateway) (st : Conversations) (req : ChatRequest)
    (hb : (pyStrip req.message).data.isEmpty = false) :
    chat llm_invoke st req =
      match llm_invoke ((get_or_create_history st req.session_id).1 ++ [⟨Role.user, req.message⟩]) with
      | Except.error e =>
        (Except.error ⟨500, "Error processing message: " ++ e⟩,
          dictSet (get_or_create_history st req.session_id).2 req.session_id
            ((get_or_create_history st req.session_id).1 ++ [⟨Role.user, req.message⟩]))
      | Except.ok reply =>
        (Except.ok ⟨reply, req.session_id⟩,
          dictSet (get_or_create_history st req.session_id).2 req.session_id
            ((get_or_create_history st req.session_id).1 ++ [⟨Role.user, req.message⟩] ++ [⟨Role.assistant, reply⟩])) := by
  unfold chat chatTryBody
  rw [hb]
  simp only [Bool.false_eq_true, if_false]
  rcases hge : get_or_create_history st req.session_id with ⟨history, st1⟩
  cases hw : llm_invoke (history ++ [⟨Role.user, req.message⟩]) with
  | error e => simp [hw, strOfExc]
  | ok reply => simp [hw, dictSet_dictSet]

/-! ## The first-entry-is-system-instruction invariant -/

/-- Every log stored in the dict starts with the fixed system entry. -/
def StoreInv (st : Conversations) : Prop :=
  ∀ sid log, dictFind st sid = some log → log.head? = some ⟨Role.system, SYSTEM_PROMPT⟩

theorem head_append_some {α : Type} {l l' : List α} {a : α} (h : l.head? = some a) :
    (l ++ l').head? = some a := by
  cases l <;> simp_all

theorem storeInv_nil : StoreInv [] := by
  intro sid log h
  simp [dictFind] at h

theorem storeInv_dictSet {st : Conversations} (hinv : StoreInv st) (k : String)
    {log : List Message} (hlog : log.head? = some ⟨Role.system, SYSTEM_PROMPT⟩) :
    StoreInv (dictSet st k log) := by
  intro sid l h
  rw [dictFind_dictSet] at h
  split at h
  · simp only [Option.some.injEq] at h
    subst h
    exact hlog
  · exact hinv sid l h

theorem get_or_create_inv {st : Conversations} (hinv : StoreInv st) (sid : String) :
    (get_or_create_history st sid).1.head? = some ⟨Role.system, SYSTEM_PROMPT⟩ ∧
    StoreInv (get_or_create_history st sid).2 := by
  cases hf : dictFind st sid with
  | some log =>
    rw [get_or_create_seen st sid log hf]
    exact ⟨hinv sid log hf, hinv⟩
  | none =>
    rw [get_or_create_not_seen st sid hf]
    exact ⟨rfl, storeInv_dictSet hinv sid rfl⟩

theorem chat_inv {st : Conversations} (hinv : StoreInv st) (llm_invoke : Gateway)
    (req : ChatRequest) : StoreInv (chat llm_invoke st req).2 := by
  cases hb : (pyStrip req.message).data.isEmpty with
  | true =>
    rw [chat_blank_eq llm_invoke st req hb]
    exact hinv
  | false =>
    rw [chat_nonblank_eq llm_invoke st req hb]
    obtain ⟨hhead, hinv1⟩ := get_or_create_inv hinv req.session_id
    cases hw : llm_invoke ((get_or_create_history st req.session_id).1 ++ [⟨Role.user, req.message⟩]) with
    | error e => exact storeInv_dictSet hinv1 _ (head_append_some hhead)
    | ok reply => exact storeInv_dictSet hinv1 _ (head_append_some (head_append_some hhead))

theorem clear_history_inv {st : Conversations} (hinv : StoreInv st)
    (req : ClearHistoryRequest) : StoreInv (clear_history st req).2 := by
  unfold clear_history
  split
  · exact storeInv_dictSet hinv _ rfl
  · exact hinv

theorem runOps_inv {st : Conversations} (hinv : StoreInv st) (ops : List Op) :
    StoreInv (runOps st ops) := by
  induction ops generalizing st with
  | nil => exact hinv
  | cons op rest ih =>
    cases op with
    | send f req => exact ih (chat_inv hinv f req)
    | clear req => exact ih (clear_history_inv hinv req)

/-! ## Claim theorems -/

/-- C1: the claim says a blank message yields HTTP 400 with the log
unchanged.  The log is indeed unchanged, but the HTTPException(400) raised
inside the `try:` block is caught by the handler's own `except Exception`
clause and re-raised as HTTP 500, so the client observes status 500, not
400: evaluated at the concrete blank request ⟨"   ", "s1"⟩ on the store
holding one session, the handler returns status 500 with the wrapped
detail and leaves the store untouched. -/
theorem chat_blank_message_returns_500 :
    chat (fun _ => Except.ok "hello") [("s1", freshLog)] ⟨"   ", "s1"⟩ =
      (Except.error ⟨500, "Error processing message: 400: Message cannot be empty"⟩,
        [("s1", freshLog)]) :=
  chat_blank_eq (fun _ => Except.ok "hello") [("s1", freshLog)] ⟨"   ", "s1"⟩ rfl

/-- C2: a send whose message is not blank and whose gateway call succeeds
with `reply` returns the reply with the same session id, and the stored
log for that session becomes the prior log (the existing one, or the fresh
single-entry log for an unseen session) with exactly the user entry and
then the assistant entry appended - nothing else of the log changes. -/
theorem chat_success_appends_two (llm_invoke : Gateway) (st : Conversations)
    (req : ChatRequest) (reply : String)
    (hmsg : (pyStrip req.message).data.isEmpty = false)
    (hgw : llm_invoke ((get_or_create_history st req.session_id).1 ++ [⟨Role.user, req.message⟩]) =
      Except.ok reply) :
    (chat llm_invoke st req).1 = Except.ok ⟨reply, req.session_id⟩ ∧
    dictFind (chat llm_invoke st req).2 req.session_id =
      some ((get_or_create_history st req.session_id).1 ++
        [⟨Role.user, req.message⟩, ⟨Role.assistant, reply⟩]) := by
  rw [chat_nonblank_eq llm_invoke st req hmsg, hgw]
  exact ⟨rfl, by simp [dictFind_dictSet_self]⟩

theorem chat_success_appends_two_witness :
    (pyStrip "hi").data.isEmpty = false ∧
    (fun _ => Except.ok "hello" : Gateway)
        ((get_or_create_history [] (ChatRequest.mk "hi" "A").session_id).1 ++
          [⟨Role.user, (ChatRequest.mk "hi" "A").message⟩]) = Except.ok "hello" ∧
    ((chat (fun _ => Except.ok "hello") [] ⟨"hi", "A"⟩).1 = Except.ok ⟨"hello", "A"⟩ ∧
      dictFind (chat (fun _ => Except.ok "hello") [] ⟨"hi", "A"⟩).2 "A" =
        some ((get_or_create_history [] "A").1 ++
          [⟨Role.user, "hi"⟩, ⟨Role.assistant, "hello"⟩])) :=
  ⟨rfl, rfl, chat_success_appends_two (fun _ => Except.ok "hello") [] ⟨"hi", "A"⟩ "hello" rfl rfl⟩

/-- C3: a send whose message is not blank and whose gateway call fails with
message `err` returns HTTP 500 with a detail containing the cause, and the
stored log for the session ends with exactly the one appended user entry -
no assistant entry is added. -/
theorem chat_gateway_failure_keeps_user_entry (llm_invoke : Gateway)
    (st : Conversations) (req : ChatRequest) (err : String)
    (hmsg : (pyStrip req.message).data.isEmpty = false)
    (hgw : llm_invoke ((get_or_create_history st req.session_id).1 ++ [⟨Role.user, req.message⟩]) =
      Except.error err) :
    (chat llm_invoke st req).1 =
      Except.error ⟨500, "Error processing message: " ++ err⟩ ∧
    dictFind (chat llm_invoke st req).2 req.session_id =
      some ((get_or_create_history st req.session_id).1 ++ [⟨Role.user, req.message⟩]) := by
  rw [chat_nonblank_eq llm_invoke st req hmsg, hgw]
  exact ⟨rfl, by simp [dictFind_dictSet_self]⟩

theorem chat_gateway_failure_keeps_user_entry_witness :
    (pyStrip "hi").data.isEmpty = false ∧
    (fun _ => Except.error "quota exceeded" : Gateway)
        ((get_or_create_history [] (ChatRequest.mk "hi" "A").session_id).1 ++
          [⟨Role.user, (ChatRequest.mk "hi" "A").message⟩]) = Except.error "quota exceeded" ∧
    ((chat (fun _ => Except.error "quota exceeded") [] ⟨"hi", "A"⟩).1 =
        Except.error ⟨500, "Error processing message: " ++ "quota exceeded"⟩ ∧
      dictFind (chat (fun _ => Except.error "quota exceeded") [] ⟨"hi", "A"⟩).2 "A" =
        some ((get_or_create_history [] "A").1 ++ [⟨Role.user, "hi"⟩])) :=
  ⟨rfl, rfl,
    chat_gateway_failure_keeps_user_entry (fun _ => Except.error "quota exceeded")
      [] ⟨"hi", "A"⟩ "quota exceeded" rfl rfl⟩

/-- C4: for an unseen session id, get_or_create_history returns the fresh
log - exactly one entry, role system, the fixed instruction text - and
stores it; a second call with the same id creates nothing new: it returns
the same stored log and leaves the store as it was after the first call. -/
theorem get_or_create_unseen_seeds_once (st : Conversations) (sid : String)
    (h : dictFind st sid = none) :
    get_or_create_history st sid = (freshLog, dictSet st sid freshLog) ∧
    freshLog = [⟨Role.system, SYSTEM_PROMPT⟩] ∧
    get_or_create_history (dictSet st sid freshLog) sid =
      (freshLog, dictSet st sid freshLog) := by
  refine ⟨get_or_create_not_seen st sid h, rfl, ?_⟩
  exact get_or_create_seen _ sid freshLog (dictFind_dictSet_self st sid freshLog)

theorem get_or_create_unseen_seeds_once_witness :
    dictFind [] "A" = none ∧
    (get_or_create_history [] "A" = (freshLog, dictSet [] "A" freshLog) ∧
      freshLog = [⟨Role.system, SYSTEM_PROMPT⟩] ∧
      get_or_create_history (dictSet [] "A" freshLog) "A" =
        (freshLog, dictSet [] "A" freshLog)) :=
  ⟨rfl, get_or_create_unseen_seeds_once [] "A" rfl⟩

/-- C5: clearing a session present in the store with a log of any length
replaces that log with the single-entry fresh system-instruction log and
returns the confirmation carrying the same session id. -/
theorem clear_history_present_resets (st : Conversations) (sid : String)
    (log : List Message) (h : dictFind st sid = some log) :
    (clear_history st ⟨sid⟩).1 =
      Except.ok ⟨"Conversation history cleared", sid⟩ ∧
    dictFind (clear_history st ⟨sid⟩).2 sid = some freshLog ∧
    freshLog = [⟨Role.system, SYSTEM_PROMPT⟩] := by
  refine ⟨?_, ?_, rfl⟩
  · simp [clear_history, h]
  · simp [clear_history, h, dictFind_dictSet_self]

theorem clear_history_present_resets_witness :
    dictFind [("A", freshLog ++ [⟨Role.user, "hi"⟩, ⟨Role.assistant, "yo"⟩])] "A" =
      some (freshLog ++ [⟨Role.user, "hi"⟩, ⟨Role.assistant, "yo"⟩]) ∧
    ((clear_history [("A", freshLog ++ [⟨Role.user, "hi"⟩, ⟨Role.assistant, "yo"⟩])] ⟨"A"⟩).1 =
        Except.ok ⟨"Conversation history cleared", "A"⟩ ∧
      dictFind (clear_history [("A", freshLog ++ [⟨Role.user, "hi"⟩, ⟨Role.assistant, "yo"⟩])] ⟨"A"⟩).2 "A" =
        some freshLog ∧
      freshLog = [⟨Role.system, SYSTEM_PROMPT⟩]) :=
  ⟨rfl, clear_history_present_resets _ "A" (freshLog ++ [⟨Role.user, "hi"⟩, ⟨Role.assistant, "yo"⟩]) (by rfl)⟩

/-- C6: invariant - in every store state reachable from the empty store by
any sequence of send and clear operations, every stored log has the fixed
system instruction entry as its first entry. -/
theorem reachable_logs_start_with_system (ops : List Op) (sid : String)
    (log : List Message) (h : dictFind (runOps [] ops) sid = some log) :
    log.head? = some ⟨Role.system, SYSTEM_PROMPT⟩ :=
  runOps_inv storeInv_nil ops sid log h

theorem reachable_logs_start_with_system_witness :
    dictFind
        (runOps [] [Op.send (fun _ => Except.ok "hello") ⟨"hi", "A"⟩, Op.clear ⟨"B"⟩]) "A" =
      some [⟨Role.system, SYSTEM_PROMPT⟩, ⟨Role.user, "hi"⟩, ⟨Role.assistant, "hello"⟩] ∧
    ([⟨Role.system, SYSTEM_PROMPT⟩, ⟨Role.user, "hi"⟩, ⟨Role.assistant, "hello"⟩] : List Message).head? =
      some ⟨Role.system, SYSTEM_PROMPT⟩ :=
  ⟨rfl,
    reachable_logs_start_with_system
      [Op.send (fun _ => Except.ok "hello") ⟨"hi", "A"⟩, Op.clear ⟨"B"⟩] "A" _ rfl⟩

/-- C7: frame property - a send or a clear invoked for one session id
leaves the log stored under every other session id exactly as it was. -/
theorem other_sessions_unchanged (llm_invoke : Gateway) (req : ChatRequest)
    (creq : ClearHistoryRequest) (st : Conversations) (sid : String)
    (log : List Message)
    (h1 : sid ≠ req.session_id) (h2 : sid ≠ creq.session_id)
    (h3 : dictFind st sid = some log) :
    dictFind (chat llm_invoke st req).2 sid = some log ∧
    dictFind (clear_history st creq).2 sid = some log := by
  constructor
  · cases hb : (pyStrip req.message).data.isEmpty with
    | true =>
      rw [chat_blank_eq llm_invoke st req hb]
      exact h3
    | false =>
      rw [chat_nonblank_eq llm_invoke st req hb]
      cases hw : llm_invoke ((get_or_create_history st req.session_id).1 ++ [⟨Role.user, req.message⟩]) with
      | error e =>
        dsimp only
        rw [dictFind_dictSet_ne _ _ _ _ (Ne.symm h1),
          dictFind_get_or_create_ne st _ sid (Ne.symm h1)]
        exact h3
      | ok reply =>
        dsimp only
        rw [dictFind_dictSet_ne _ _ _ _ (Ne.symm h1),
          dictFind_get_or_create_ne st _ sid (Ne.symm h1)]
        exact h3
  · unfold clear_history
    split
    · dsimp only
      rw [dictFind_dictSet_ne _ _ _ _ (Ne.symm h2)]
      exact h3
    · exact h3

theorem other_sessions_unchanged_witness :
    ("B" : String) ≠ "A" ∧ ("B" : String) ≠ "A" ∧
    dictFind [("B", freshLog)] "B" = some freshLog ∧
    (dictFind (chat (fun _ => Except.ok "hello") [("B", freshLog)] ⟨"hi", "A"⟩).2 "B" =
        some freshLog ∧
      dictFind (clear_history [("B", freshLog)] ⟨"A"⟩).2 "B" = some freshLog) :=
  ⟨by decide, by decide, rfl,
    other_sessions_unchanged (fun _ => Except.ok "hello") ⟨"hi", "A"⟩ ⟨"A"⟩
      [("B", freshLog)] "B" freshLog (by decide) (by decide) rfl⟩

/-- C8: clearing a never-seen session id succeeds, returns the confirmation
with the same session id, and leaves the store completely unchanged - no
log is created for that id. -/
theorem clear_history_absent_noop (st : Conversations) (sid : String)
    (h : dictFind st sid = none) :
    clear_history st ⟨sid⟩ =
      (Except.ok ⟨"Conversation history cleared", sid⟩, st) := by
  simp [clear_history, h]

theorem clear_history_absent_noop_witness :
    dictFind [("B", freshLog)] "A" = none ∧
    clear_history [("B", freshLog)] ⟨"A"⟩ =
      (Except.ok ⟨"Conversation history cleared", "A"⟩, [("B", freshLog)]) :=
  ⟨rfl, clear_history_absent_noop [("B", freshLog)] "A" rfl⟩

/-- C9: the startup credential check fails fatally when GOOGLE_API_KEY is
absent from the environment, and a present-but-empty credential is treated
exactly the same way, because the code tests falsiness (`if not
google_api_key`) rather than presence. -/
theorem startup_missing_or_empty_key_fatal :
    startupCheck none =
      Except.error "GOOGLE_API_KEY not found in environment variables" ∧
    startupCheck (some "") = startupCheck none :=
  ⟨rfl, rfl⟩

/-- C10: a send rejected for a blank message leaves the store untouched -
in particular, when its session id was unseen, no log is created for it,
because the blank-message check precedes the store lookup. -/
theorem chat_blank_creates_no_log (llm_invoke : Gateway) (st : Conversations)
    (req : ChatRequest)
    (hb : (pyStrip req.message).data.isEmpty = true)
    (habs : dictFind st req.session_id = none) :
    (chat llm_invoke st req).2 = st ∧
    dictFind (chat llm_invoke st req).2 req.session_id = none := by
  rw [chat_blank_eq llm_invoke st req hb]
  exact ⟨rfl, habs⟩

theorem chat_blank_creates_no_log_witness :
    (pyStrip "  ").data.isEmpty = true ∧
    dictFind [("B", freshLog)] "A" = none ∧
    ((chat (fun _ => Except.ok "hello") [("B", freshLog)] ⟨"  ", "A"⟩).2 =
        [("B", freshLog)] ∧
      dictFind (chat (fun _ => Except.ok "hello") [("B", freshLog)] ⟨"  ", "A"⟩).2 "A" =
        none) :=
  ⟨rfl, rfl,
    chat_blank_creates_no_log (fun _ => Except.ok "hello") [("B", freshLog)]
      ⟨"  ", "A"⟩ rfl rfl⟩
